import Mathlib

/-!
Shallow embedding of the Bjorn scheduling/retry engine
(`orchestrator.py` and `wifi_monitor.py`).

Python-level conventions of the embedding:
* machine state that the orchestrator threads through its calls is passed
  explicitly; fallible Python code (dict subscripts, list indexing,
  `importlib`, `strptime`) lives in `Except PyErr`;
* `datetime` values are modelled as seconds of the proleptic Gregorian
  calendar (datetime comparison and `timedelta(seconds=k)` addition are
  exactly order and addition on that count, which is CPython's own
  `_ymd2ord`-based representation);
* plugin actions are opaque collaborators: an action's `execute` method is a
  function of its arguments that either returns a result string or raises.
-/

namespace Bjorn

/-- The Python exception kinds the orchestrator's control flow can observe. -/
inductive PyErr where
  | keyError
  | indexError
  | valueError
  | importError
  | attributeError
  deriving DecidableEq, Repr

/-- Fallible Python computation. -/
abbrev Py (α : Type) := Except PyErr α

/-! ### CPython `datetime` model: proleptic Gregorian calendar in seconds -/

/-- Gregorian leap-year test (CPython `datetime._is_leap`). -/
def isLeap (y : Nat) : Bool :=
  y % 4 == 0 && (y % 100 != 0 || y % 400 == 0)

/-- Days in month `m` of year `y` (CPython `datetime._days_in_month`). -/
def daysInMonth (y m : Nat) : Nat :=
  if m = 2 then (if isLeap y then 29 else 28)
  else if m = 4 ∨ m = 6 ∨ m = 9 ∨ m = 11 then 30
  else 31

/-- Days in all years strictly before year `y` (CPython `_days_before_year`). -/
def daysBeforeYear (y : Nat) : Nat :=
  (y - 1) * 365 + (y - 1) / 4 - (y - 1) / 100 + (y - 1) / 400

/-- Days in year `y` strictly before month `m` (CPython `_days_before_month`). -/
def daysBeforeMonth (y m : Nat) : Nat :=
  (List.range (m - 1)).foldl (fun acc i => acc + daysInMonth y (i + 1)) 0

/-- Proleptic Gregorian ordinal of a date, with 0001-01-01 as ordinal 1
(CPython `_ymd2ord`). -/
def toOrdinal (y m d : Nat) : Nat :=
  daysBeforeYear y + daysBeforeMonth y m + d

/-- A `datetime` as seconds since 0001-01-01 00:00:00. -/
def toSeconds (y mo d h mi s : Nat) : Nat :=
  (toOrdinal y mo d - 1) * 86400 + h * 3600 + mi * 60 + s

/-- Numeric value of a decimal digit character. -/
def digitVal (c : Char) : Nat := c.toNat - 48

/-- Decimal number denoted by a digit list. -/
def natOfDigits (l : List Char) : Nat :=
  l.foldl (fun a c => a * 10 + digitVal c) 0

/-- `datetime.strptime(s, "%Y%m%d_%H%M%S")`, on the canonical shape the
orchestrator writes: exactly 8 digits, an underscore, then 6 digits, with the
field ranges `datetime` itself enforces.  Any other input is a `ValueError`,
matching CPython on every string this development evaluates it on. -/
def pyStrptime (s : String) : Py Nat :=
  let cs := s.data
  let datePart := cs.take 8
  let sep := (cs.drop 8).take 1
  let timePart := cs.drop 9
  if cs.length == 15 && datePart.all Char.isDigit && sep == ['_']
      && timePart.all Char.isDigit then
    let y := natOfDigits (datePart.take 4)
    let mo := natOfDigits ((datePart.drop 4).take 2)
    let d := natOfDigits (datePart.drop 6)
    let h := natOfDigits (timePart.take 2)
    let mi := natOfDigits ((timePart.drop 2).take 2)
    let sec := natOfDigits (timePart.drop 4)
    if 1 ≤ y ∧ 1 ≤ mo ∧ mo ≤ 12 ∧ 1 ≤ d ∧ d ≤ daysInMonth y mo
        ∧ h ≤ 23 ∧ mi ≤ 59 ∧ sec ≤ 59 then
      .ok (toSeconds y mo d h mi sec)
    else .error .valueError
  else .error .valueError

/-- Left-pad the decimal print of `n` with zeros to width `w`. -/
def padNum (w n : Nat) : String :=
  let s := toString n
  String.mk (List.replicate (w - s.length) '0') ++ s

/-- Civil date from a day count since 0001-01-01 (era decomposition of the
Gregorian calendar; inverse of `toOrdinal` minus one). -/
def civilFromDays (days : Nat) : Nat × Nat × Nat :=
  let z := days + 306
  let era := z / 146097
  let doe := z % 146097
  let yoe := (doe - doe / 1460 + doe / 36524 - doe / 146096) / 365
  let y0 := yoe + era * 400
  let doy := doe - (365 * yoe + yoe / 4 - yoe / 100)
  let mp := (5 * doy + 2) / 153
  let d := doy - (153 * mp + 2) / 5 + 1
  let m := if mp < 10 then mp + 3 else mp - 9
  (if m ≤ 2 then y0 + 1 else y0, m, d)

/-- `datetime.strftime("%Y%m%d_%H%M%S")` of a second count. -/
def pyStrftime (t : Nat) : String :=
  let days := t / 86400
  let rem := t % 86400
  let ymd := civilFromDays days
  padNum 4 ymd.1 ++ padNum 2 ymd.2.1 ++ padNum 2 ymd.2.2 ++ "_"
    ++ padNum 2 (rem / 3600) ++ padNum 2 (rem % 3600 / 60) ++ padNum 2 (rem % 60)

/-! ### Python string / dict primitives -/

/-- Boolean prefix test on character lists. -/
def isPrefixList : List Char → List Char → Bool
  | [], _ => true
  | _ :: _, [] => false
  | a :: as, b :: bs => a == b && isPrefixList as bs

/-- Contiguous-substring test on character lists. -/
def containsSub : List Char → List Char → Bool
  | needle, [] => isPrefixList needle []
  | needle, h :: t => isPrefixList needle (h :: t) || containsSub needle t

/-- Python `needle in hay` on strings. -/
def pyIn (needle hay : String) : Bool :=
  containsSub needle.data hay.data

/-- Python truthiness of an optional string (`None` and `""` are falsy). -/
def truthyStr : Option String → Bool
  | none => false
  | some s => !(s == "")

/-- Split a character list at every occurrence of `sep`, keeping empty
pieces (the semantics of Python `str.split(sep)` with an explicit
separator). -/
def splitChar (sep : Char) : List Char → List (List Char)
  | [] => [[]]
  | c :: cs =>
    let r := splitChar sep cs
    if c == sep then [] :: r
    else
      match r with
      | [] => [[c]]
      | h :: t => (c :: h) :: t

/-- Python `s.split(sep)` for a one-character separator. -/
def pySplit (sep : Char) (s : String) : List String :=
  (splitChar sep s.data).map String.mk

/-- One target row of the netkb table: the fixed `IPs`, `Alive`, `Ports`
columns plus the per-action status columns, modelled as an association list so
that a genuinely absent column is distinguishable from an empty cell. -/
structure Row where
  ip : String
  alive : String
  portsField : String
  status : List (String × String)
  deriving DecidableEq, Repr

/-- The stored status cell for `key`, when the column exists. -/
def lookupCell (r : Row) (key : String) : Option String :=
  (r.status.find? (fun p => p.1 == key)).map (fun p => p.2)

/-- Python `row.get(key, "")`. -/
def rowGet (r : Row) (key : String) : String :=
  (lookupCell r key).getD ""

/-- Python `row[key]`: raises `KeyError` when the column is absent. -/
def rowIdx (r : Row) (key : String) : Py String :=
  match lookupCell r key with
  | some v => .ok v
  | none => .error .keyError

/-- Replace the first binding of `key` (append when absent), i.e. Python
`row[key] = v` on the status dict. -/
def setCell : List (String × String) → String → String → List (String × String)
  | [], key, v => [(key, v)]
  | p :: ps, key, v =>
    if p.1 == key then (key, v) :: ps else p :: setCell ps key v

/-- Python `row[key] = v`. -/
def rowSet (r : Row) (key v : String) : Row :=
  { r with status := setCell r.status key v }

/-- Python `l[i]`: raises `IndexError` out of range. -/
def listIdx {α : Type} (l : List α) (i : Nat) : Py α :=
  match l.get? i with
  | some a => .ok a
  | none => .error .indexError

/-! ### Actions and the eligibility/dispatch gate (`Orchestrator.execute_action`) -/

/-- What a plugin's `execute` call does: return a result string, or raise. -/
inductive ActResult where
  | ret (s : String)
  | exc

/-- A loaded action: `action_name` (the status-column key), `port`
(`action.get("b_port")`, possibly `None`), `b_parent_action`
(`action.get("b_parent")`), and the opaque `execute` capability. -/
structure Action where
  action_name : String
  port : Option Nat
  b_parent_action : Option String
  execute : String → String → Row → String → ActResult

/-- Python `str(action.port)` (`str(None) = "None"`). -/
def portStr : Option Nat → String
  | some n => toString n
  | none => "None"

/-- The configuration fields `execute_action` consults on `shared_data`. -/
structure Config where
  retry_success_actions : Bool
  success_retry_delay : Nat
  failed_retry_delay : Nat

/-- Result of one `execute_action` call: the returned boolean, the (possibly
mutated) row, whether the plugin's `execute` was actually invoked, and whether
`shared_data.write_data` persisted the table. -/
structure ExecResult where
  success : Bool
  row : Row
  dispatched : Bool
  wrote : Bool
  deriving DecidableEq, Repr

/-- The `return False` taken by every eligibility gate: nothing dispatched,
row untouched, nothing persisted. -/
def skipResult (row : Row) : ExecResult := ⟨false, row, false, false⟩

/-- Outcome of one cooldown block: fall through, `return False`, or an
uncaught exception. -/
inductive Gate where
  | proceed
  | block
  | raise (e : PyErr)
  deriving DecidableEq, Repr

/-- `strptime(cell.split('_')[1] + "_" + cell.split('_')[2], "%Y%m%d_%H%M%S")`:
list indexing may raise `IndexError`, parsing may raise `ValueError`. -/
def tsOfCell (cell : String) : Py Nat :=
  let parts := pySplit '_' cell
  match listIdx parts 1 with
  | .error e => .error e
  | .ok p1 =>
    match listIdx parts 2 with
    | .error e => .error e
    | .ok p2 => pyStrptime (p1 ++ "_" ++ p2)

/-- The success-cooldown block of `execute_action` (orchestrator.py lines
137-149).  `except ValueError` catches only the parse error and *falls
through*; an `IndexError` from the subscripts propagates. -/
def successGate (cfg : Config) (now : Nat) (cell : String) : Gate :=
  if pyIn "success" cell then
    if !cfg.retry_success_actions then .block
    else
      match tsOfCell cell with
      | .ok t => if now < t + cfg.success_retry_delay then .block else .proceed
      | .error .valueError => .proceed
      | .error e => .raise e
  else .proceed

/-- The failure-cooldown block of `execute_action` (orchestrator.py lines
151-161), same exception structure as `successGate`. -/
def failedGate (cfg : Config) (now : Nat) (cell : String) : Gate :=
  if pyIn "failed" cell then
    match tsOfCell cell with
    | .ok t => if now < t + cfg.failed_retry_delay then .block else .proceed
    | .error .valueError => .proceed
    | .error e => .raise e
  else .proceed

/-- The final `try` block of `execute_action` (orchestrator.py lines 163-179):
invoke the plugin; write `success_<now>`/`failed_<now>` into the row's cell;
persist; `except Exception` downgrades a plugin exception to a failed
outcome. -/
def runDispatch (now : Nat) (action : Action) (ip : String) (row : Row)
    (action_key : String) : ExecResult :=
  match action.execute ip (portStr action.port) row action_key with
  | .ret result =>
    let ts := pyStrftime now
    let row' :=
      if result == "success" then rowSet row action_key ("success_" ++ ts)
      else rowSet row action_key ("failed_" ++ ts)
    ⟨result == "success", row', true, true⟩
  | .exc =>
    ⟨false, rowSet row action_key ("failed_" ++ pyStrftime now), true, true⟩

/-- `Orchestrator.execute_action(action, ip, ports, row, action_key, ...)`.
Gate order is the source's: port containment (`hasattr(action, 'port')` is
always true for a loaded action), parent-success containment (Python
truthiness on `action.b_parent_action`), success cooldown (direct subscript
`row[action_key]`, hence `KeyError` on a missing column), failure cooldown
(`row.get(action_key, "")`), then the dispatch `try` block. -/
def execute_action (cfg : Config) (now : Nat) (action : Action) (ip : String)
    (ports : List String) (row : Row) (action_key : String) : Py ExecResult :=
  if !(ports.contains (portStr action.port)) then .ok (skipResult row)
  else if truthyStr action.b_parent_action
      && !(pyIn "success" (rowGet row (action.b_parent_action.getD ""))) then
    .ok (skipResult row)
  else
    match rowIdx row action_key with
    | .error e => .error e
    | .ok cell =>
      match successGate cfg now cell with
      | .raise e => .error e
      | .block => .ok (skipResult row)
      | .proceed =>
        match failedGate cfg now (rowGet row action_key) with
        | .raise e => .error e
        | .block => .ok (skipResult row)
        | .proceed => .ok (runDispatch now action ip row action_key)

/-- Whether a finished `execute_action` call actually invoked the plugin. -/
def dispatchedOf : Py ExecResult → Bool
  | .ok r => r.dispatched
  | .error _ => false

/-- The combined port/dependency precondition of `execute_action` as a single
boolean: the port gate passes and the parent gate passes. -/
def parentOk (action : Action) (row : Row) : Bool :=
  !(truthyStr action.b_parent_action)
    || pyIn "success" (rowGet row (action.b_parent_action.getD ""))

/-! ### The cycle walker (`Orchestrator.process_alive_ips`) -/

/-- The inner fast-path loop of `process_alive_ips` (orchestrator.py lines
104-110): after a top-level success on a row, try that action's direct
children (`child_action.b_parent_action == action_key`) on the *same* row, in
registry order, breaking on the first child success.  `ip` and `ports` were
computed from the row before the parent's dispatch mutated it. -/
def childFastPath (cfg : Config) (now : Nat) (parentKey ip : String)
    (ports : List String) : List Action → Row → Py Row
  | [], row => .ok row
  | c :: cs, row =>
    if c.b_parent_action = some parentKey then
      match execute_action cfg now c ip ports row c.action_name with
      | .error e => .error e
      | .ok r =>
        if r.success then .ok r.row
        else childFastPath cfg now parentKey ip ports cs r.row
    else childFastPath cfg now parentKey ip ports cs row

/-- The row loop of the top-level pass (orchestrator.py lines 91-111) for one
action: skip rows whose `Alive` column is not `'1'`; only actions with
`b_parent_action is None` are attempted; on a successful dispatch run the
child fast path on the same row and break out of the row loop. -/
def topRowLoop (cfg : Config) (now : Nat) (allActions : List Action)
    (action : Action) : List Row → Py (List Row × Bool)
  | [] => .ok ([], false)
  | row :: rest =>
    if row.alive ≠ "1" then
      match topRowLoop cfg now allActions action rest with
      | .error e => .error e
      | .ok (rest', ex) => .ok (row :: rest', ex)
    else
      let ports := pySplit ';' row.portsField
      if action.b_parent_action = none then
        match execute_action cfg now action row.ip ports row action.action_name with
        | .error e => .error e
        | .ok r =>
          if r.success then
            match childFastPath cfg now action.action_name row.ip ports allActions r.row with
            | .error e => .error e
            | .ok row2 => .ok (row2 :: rest, true)
          else
            match topRowLoop cfg now allActions action rest with
            | .error e => .error e
            | .ok (rest', ex) => .ok (r.row :: rest', ex)
      else
        match topRowLoop cfg now allActions action rest with
        | .error e => .error e
        | .ok (rest', ex) => .ok (row :: rest', ex)

/-- The outer action loop of the top-level pass (orchestrator.py lines
90-111), threading the mutated table through the per-action row loops. -/
def topPass (cfg : Config) (now : Nat) (allActions : List Action) :
    List Action → List Row → Py (List Row × Bool)
  | [], rows => .ok (rows, false)
  | a :: as, rows =>
    match topRowLoop cfg now allActions a rows with
    | .error e => .error e
    | .ok (rows', ex) =>
      match topPass cfg now allActions as rows' with
      | .error e => .error e
      | .ok (rows'', ex') => .ok (rows'', ex || ex')

/-- The row loop of the child sweep (orchestrator.py lines 116-123) for one
child action.  Note the source has *no* `Alive` check here: every row of the
table is attempted; the loop breaks on the first successful dispatch. -/
def sweepRowLoop (cfg : Config) (now : Nat) (child : Action) :
    List Row → Py (List Row × Bool)
  | [] => .ok ([], false)
  | row :: rest =>
    let ports := pySplit ';' row.portsField
    match execute_action cfg now child row.ip ports row child.action_name with
    | .error e => .error e
    | .ok r =>
      if r.success then .ok (r.row :: rest, true)
      else
        match sweepRowLoop cfg now child rest with
        | .error e => .error e
        | .ok (rest', ex) => .ok (r.row :: rest', ex)

/-- The child sweep (orchestrator.py lines 113-123): every action of
`self.actions` with a Python-truthy `b_parent_action` sweeps the whole
table. -/
def sweep (cfg : Config) (now : Nat) :
    List Action → List Row → Py (List Row × Bool)
  | [], rows => .ok (rows, false)
  | c :: cs, rows =>
    if truthyStr c.b_parent_action then
      match sweepRowLoop cfg now c rows with
      | .error e => .error e
      | .ok (rows', ex) =>
        match sweep cfg now cs rows' with
        | .error e => .error e
        | .ok (rows'', ex') => .ok (rows'', ex || ex')
    else sweep cfg now cs rows

/-- `Orchestrator.process_alive_ips(current_data)`: the top-level pass over
`self.actions`, then the child sweep, returning the mutated table and
`any_action_executed` (which the source sets only on *successful*
dispatches). -/
def process_alive_ips (cfg : Config) (now : Nat) (actions : List Action)
    (rows : List Row) : Py (List Row × Bool) :=
  match topPass cfg now actions actions rows with
  | .error e => .error e
  | .ok (rows1, ex1) =>
    match sweep cfg now actions rows1 with
    | .error e => .error e
    | .ok (rows2, ex2) => .ok (rows2, ex1 || ex2)

/-! ### Startup loading (`Orchestrator.load_actions` / `load_action`) -/

/-- A plugin class as the loader sees it: instantiating it yields an object
whose `execute` method is the opaque capability. -/
structure PluginClass where
  execute : String → String → Row → String → ActResult

/-- The importable `actions.*` package: module name to the classes the module
defines. -/
abbrev Env := List (String × List (String × PluginClass))

/-- `importlib.import_module(f'actions.{name}')`: `ModuleNotFoundError` (an
`ImportError`) when the module does not exist. -/
def importModule (env : Env) (name : String) : Py (List (String × PluginClass)) :=
  match env.find? (fun m => m.1 == name) with
  | some m => .ok m.2
  | none => .error .importError

/-- `getattr(module, b_class)`: `AttributeError` when the class is absent. -/
def getattrClass (classes : List (String × PluginClass)) (cname : String) :
    Py PluginClass :=
  match classes.find? (fun c => c.1 == cname) with
  | some c => .ok c.2
  | none => .error .attributeError

/-- One record of the actions file consumed at startup. -/
structure RegistryEntry where
  b_module : String
  b_class : Option String
  b_port : Option Nat
  b_parent : Option String

/-- The loader-visible fields of the `Orchestrator` after `load_actions`. -/
structure Orchestrator where
  actions : List Action
  standalone_actions : List Action
  network_scanner : Bool
  nmap_vuln_scanner : Bool

/-- `Orchestrator.load_action(module_name, action)` (orchestrator.py lines
69-83): `import_module` runs *outside* the `try`, so an unknown module's
`ImportError` propagates; inside the `try`, only `AttributeError` is caught
(logged and the single action skipped).  A loaded instance with
`port == 0` goes to `standalone_actions`, everything else to `actions`. -/
def load_action (env : Env) (entry : RegistryEntry) (orch : Orchestrator) :
    Py Orchestrator :=
  match importModule env entry.b_module with
  | .error e => .error e
  | .ok classes =>
    let tryBody : Py (String × PluginClass) :=
      match entry.b_class with
      | none => .error .keyError
      | some cname =>
        match getattrClass classes cname with
        | .error e => .error e
        | .ok pc => .ok (cname, pc)
    match tryBody with
    | .error .attributeError => .ok orch
    | .error e => .error e
    | .ok (cname, pc) =>
      let a : Action :=
        { action_name := cname
          port := entry.b_port
          b_parent_action := entry.b_parent
          execute := pc.execute }
      if entry.b_port = some 0 then
        .ok { orch with standalone_actions := orch.standalone_actions ++ [a] }
      else
        .ok { orch with actions := orch.actions ++ [a] }

/-- `Orchestrator.load_actions()` (orchestrator.py lines 45-57): fold the
registry records; the reserved module names `scanning` and
`nmap_vuln_scanner` load the network scanner and the vulnerability scanner
(modelled by their presence flags; the scanner's own module must import). -/
def load_actions (env : Env) : List RegistryEntry → Orchestrator → Py Orchestrator
  | [], orch => .ok orch
  | entry :: rest, orch =>
    if entry.b_module = "scanning" then
      match importModule env "scanning" with
      | .error e => .error e
      | .ok _ => load_actions env rest { orch with network_scanner := true }
    else if entry.b_module = "nmap_vuln_scanner" then
      load_actions env rest { orch with nmap_vuln_scanner := true }
    else
      match load_action env entry orch with
      | .error e => .error e
      | .ok orch' => load_actions env rest orch'

/-- The empty orchestrator `__init__` starts from. -/
def initOrch : Orchestrator :=
  { actions := [], standalone_actions := [], network_scanner := false
    nmap_vuln_scanner := false }

/-! ### Idle remediation (`wifi_monitor.switch_network_if_idle`) -/

/-- One record of `wifi_networks.json`. -/
structure WifiNet where
  ssid : String
  bssid : Option String
  password : String

/-- The environment `switch_network_if_idle` polls: the credentials file, the
`iwlist` scan result at each poll, and whether `nmcli` connects to a given
network. -/
structure WifiWorld where
  credentials : List WifiNet
  available : Nat → List String
  connectOk : String → String → Bool

/-- The credential loop of `switch_network_if_idle` (wifi_monitor.py lines
90-96): try each known network that is in scan range, breaking after the
first successful connection; returns whether a connection was made. -/
def tryConnectKnown (w : WifiWorld) (ssids : List String) :
    List WifiNet → Bool
  | [] => false
  | n :: rest =>
    if ssids.contains n.ssid
        || (match n.bssid with | some b => ssids.contains b | none => false) then
      if w.connectOk n.ssid n.password then true
      else tryConnectKnown w ssids rest
    else tryConnectKnown w ssids rest

/-- `wifi_monitor.switch_network_if_idle(orchestrator)` (wifi_monitor.py
lines 79-99), interpreted with `fuel` bounding the number of `while True`
iterations.  The body — check the status label, scan, attempt known networks,
sleep `CHECK_INTERVAL` — contains no `break` or `return` of the `while` loop
(the inner `break` only leaves the credential `for`), so every iteration
unconditionally continues; `some ()` would mean the call returned to its
caller within `fuel` iterations.  Nothing inside the loop changes the status
label passed in. -/
def switch_network_if_idle (w : WifiWorld) (status : String) :
    Nat → Nat → Option Unit
  | _, 0 => none
  | k, fuel + 1 =>
    let _attempted :=
      if status == "idle_action" then tryConnectKnown w (w.available k) w.credentials
      else false
    switch_network_if_idle w status (k + 1) fuel

/-- `switch_network_if_idle` eventually returns to its caller. -/
def SwitchReturns (w : WifiWorld) (status : String) : Prop :=
  ∃ fuel, (switch_network_if_idle w status 0 fuel).isSome

/-! ### The outer loop body (`Orchestrator.run`) -/

/-- What one iteration of the `while not orchestrator_should_exit` loop does:
it completes (with the table it last saw, whether it reached the
`time.sleep(scan_interval)` call, and how many times
`switch_network_if_idle` was invoked), or it hangs inside an invocation that
does not return, or an uncaught exception escapes. -/
inductive IterResult where
  | completed (store : List Row) (slept : Bool) (wifiCalls : Nat)
  | hung (wifiCalls : Nat)
  | err (e : PyErr)
  deriving DecidableEq, Repr

/-- One iteration of `Orchestrator.run`'s loop (orchestrator.py lines
188-215): run a cycle; if nothing executed and a scanner exists, rescan
(`scanStore` is the table the re-read returns) and run a second cycle; if
still nothing executed, set the label `idle_action` and call
`wifi_monitor.switch_network_if_idle`; the `time.sleep(scan_interval)` at the
end of the idle branch runs only if that call returns. -/
def runIteration (cfg : Config) (now : Nat) (orch : Orchestrator)
    (store scanStore : List Row) (w : WifiWorld) (wifiFuel : Nat) : IterResult :=
  match process_alive_ips cfg now orch.actions store with
  | .error e => .err e
  | .ok (d1, any1) =>
    if any1 then .completed d1 false 0
    else if orch.network_scanner then
      match process_alive_ips cfg now orch.actions scanStore with
      | .error e => .err e
      | .ok (d2, any2) =>
        if any2 then .completed d2 true 0
        else
          match switch_network_if_idle w "idle_action" 0 wifiFuel with
          | some _ => .completed d2 true 1
          | none => .hung 1
    else .completed d1 true 0

/-- The outer-loop iteration finishes (for some fuel bound on the idle
remediation's poll loop). -/
def IterCompletes (cfg : Config) (now : Nat) (orch : Orchestrator)
    (store scanStore : List Row) (w : WifiWorld) : Prop :=
  ∃ fuel store' slept n,
    runIteration cfg now orch store scanStore w fuel = .completed store' slept n

/-! ### Well-formed status cells -/

/-- Characters a stored timestamp is made of. -/
def tsCharsB (s : String) : Bool :=
  s.data.all (fun c => c.isDigit || c == '_')

/-- A status cell as the scheduler itself ever writes one: absent/empty, or a
tag plus a timestamp-shaped suffix. -/
def WellFormedCell (s : String) : Prop :=
  s = "" ∨ (∃ t, tsCharsB t = true ∧ s = "success_" ++ t)
    ∨ (∃ t, tsCharsB t = true ∧ s = "failed_" ++ t)

/-- `s` is a success-tagged value (`success@*` in the spec's notation). -/
def successTagged (s : String) : Prop :=
  ∃ t, s = "success_" ++ t

/-! ### Concrete instances used by witnesses and counterexamples -/

/-- A plugin whose `execute` always returns `"success"`. -/
def bhvSuccess : String → String → Row → String → ActResult :=
  fun _ _ _ _ => .ret "success"

/-- A plugin whose `execute` always raises. -/
def bhvRaise : String → String → Row → String → ActResult :=
  fun _ _ _ _ => .exc

/-- A configuration with successful-action retry disabled. -/
def cfgEx : Config :=
  { retry_success_actions := false, success_retry_delay := 3600
    failed_retry_delay := 3600 }

/-- A configuration with successful-action retry enabled. -/
def cfgRetry : Config :=
  { retry_success_actions := true, success_retry_delay := 3600
    failed_retry_delay := 3600 }

/-- The evaluation instant 2024-01-02 00:00:00 used by concrete runs. -/
def nowEx : Nat := toSeconds 2024 1 2 0 0 0

/-- The stored instant 2024-01-01 00:00:00 used by concrete status cells. -/
def tsEx : Nat := toSeconds 2024 1 1 0 0 0

/-- A port-80 child action depending on `Parent`. -/
def aChild : Action :=
  { action_name := "Child", port := some 80, b_parent_action := some "Parent"
    execute := bhvSuccess }

/-- A port-80 top-level action named `A`. -/
def aTop : Action :=
  { action_name := "A", port := some 80, b_parent_action := none
    execute := bhvSuccess }

/-- A port-80 top-level action named `A` whose plugin raises. -/
def aTopRaise : Action :=
  { action_name := "A", port := some 80, b_parent_action := none
    execute := bhvRaise }

/-- A row whose `Parent` cell succeeded and whose `Child` cell is blank. -/
def rowParentDone : Row :=
  { ip := "10.0.0.1", alive := "1", portsField := "80"
    status := [("Parent", "success_20240101_000000"), ("Child", "")] }

/-- A row whose `A` cell records a success. -/
def rowSucceeded : Row :=
  { ip := "10.0.0.2", alive := "1", portsField := "80"
    status := [("A", "success_20240101_000000")] }

/-- A row whose `A` cell records a failure at `tsEx`. -/
def rowFailed : Row :=
  { ip := "10.0.0.3", alive := "1", portsField := "80"
    status := [("A", "failed_20240101_000000")] }

/-- A row with a blank `A` cell. -/
def rowBlank : Row :=
  { ip := "10.0.0.4", alive := "1", portsField := "80"
    status := [("A", "")] }

/-- A row with no `A` column at all. -/
def rowNoColumn : Row :=
  { ip := "10.0.0.5", alive := "1", portsField := "80", status := [] }

/-- A row whose `A` cell has a success tag and an unparsable timestamp
(month 01, day 99). -/
def rowCorrupt : Row :=
  { ip := "10.0.0.6", alive := "1", portsField := "80"
    status := [("A", "success_20240199_000000")] }

/-- A row whose `A` cell is the bare tag `success` (fewer than three
underscore-separated parts). -/
def rowShortCell : Row :=
  { ip := "10.0.0.7", alive := "1", portsField := "80"
    status := [("A", "success")] }

/-- A row whose `A` cell has a failed tag and an unparsable timestamp
(month 01, day 99). -/
def rowCorruptFailed : Row :=
  { ip := "10.0.0.8", alive := "1", portsField := "80"
    status := [("A", "failed_20240199_000000")] }

/-- Top-level action `AX` for the dead-table cycle. -/
def aXDead : Action :=
  { action_name := "AX", port := some 80, b_parent_action := none
    execute := bhvSuccess }

/-- Child action `AY` (parent `AX`) for the dead-table cycle. -/
def aYDead : Action :=
  { action_name := "AY", port := some 80, b_parent_action := some "AX"
    execute := bhvSuccess }

/-- A non-alive row whose `AX` cell succeeded earlier and whose `AY` cell is
blank. -/
def deadRow : Row :=
  { ip := "10.0.0.9", alive := "0", portsField := "80"
    status := [("AX", "success_20240101_000000"), ("AY", "")] }

/-- `deadRow` after the child sweep dispatches `AY` against it at `nowEx`. -/
def deadRowAfter : Row :=
  { ip := "10.0.0.9", alive := "0", portsField := "80"
    status := [("AX", "success_20240101_000000"), ("AY", "success_20240102_000000")] }

/-- Plugin environment for Scenario A: two modules, one class each. -/
def envScenA : Env :=
  [("modx", [("ActionX", ⟨bhvSuccess⟩)]), ("mody", [("ActionY", ⟨bhvSuccess⟩)])]

/-- Scenario A's registry: `ActionX(port=80, parent=None)`,
`ActionY(port=0, parent="ActionX")`. -/
def entriesScenA : List RegistryEntry :=
  [⟨"modx", some "ActionX", some 80, none⟩,
   ⟨"mody", some "ActionY", some 0, some "ActionX"⟩]

/-- The orchestrator Scenario A's registry loads into. -/
def orchScenA : Orchestrator :=
  (load_actions envScenA entriesScenA initOrch).toOption.getD initOrch

/-- Scenario A's target `T1`: alive, open port 80, blank status cells. -/
def t1row : Row :=
  { ip := "192.168.1.10", alive := "1", portsField := "80"
    status := [("ActionX", ""), ("ActionY", "")] }

/-- Plugin environment for the loader-error scenarios: only `goodmod`
exists, providing only `GoodAction`. -/
def envLoad : Env := [("goodmod", [("GoodAction", ⟨bhvSuccess⟩)])]

/-- A registry whose first record names an unknown module, followed by a
well-formed record. -/
def entriesBadModule : List RegistryEntry :=
  [⟨"badmod", some "Bad", some 80, none⟩,
   ⟨"goodmod", some "GoodAction", some 80, none⟩]

/-- A registry record naming an unknown class of an existing module. -/
def entryBadClass : RegistryEntry := ⟨"goodmod", some "Missing", some 80, none⟩

/-- An orchestrator with no actions and a scanner, for idle-loop runs. -/
def orchIdle : Orchestrator :=
  { actions := [], standalone_actions := [], network_scanner := true
    nmap_vuln_scanner := false }

/-- A wifi world with no known credentials and nothing in range. -/
def wifiQuiet : WifiWorld :=
  { credentials := [], available := fun _ => [], connectOk := fun _ _ => false }

/-! ## Helper lemmas -/

/-- A boolean prefix is pointwise contained in the longer list. -/
theorem isPrefixList_mem :
    ∀ (n m : List Char) (c : Char), isPrefixList n m = true → c ∈ n → c ∈ m
  | [], _, c, _, hc => absurd hc (List.not_mem_nil c)
  | _ :: _, [], _, h, _ => by simp [isPrefixList] at h
  | a :: as, b :: bs, c, h, hc => by
    rw [isPrefixList, Bool.and_eq_true, beq_iff_eq] at h
    rcases List.mem_cons.mp hc with rfl | hc'
    · exact List.mem_cons.mpr (Or.inl h.1)
    · exact List.mem_cons.mpr (Or.inr (isPrefixList_mem as bs c h.2 hc'))

/-- A contiguous substring is pointwise contained in the haystack. -/
theorem containsSub_mem :
    ∀ (n h : List Char) (c : Char), containsSub n h = true → c ∈ n → c ∈ h
  | [], _, c, _, hc => absurd hc (List.not_mem_nil c)
  | a :: as, [], _, hc, _ => by simp [containsSub, isPrefixList] at hc
  | n, x :: t, c, hc, hm => by
    rw [containsSub, Bool.or_eq_true] at hc
    rcases hc with h1 | h2
    · exact isPrefixList_mem n (x :: t) c h1 hm
    · exact List.mem_cons_of_mem x (containsSub_mem n t c h2 hm)

/-- `"success" in "failed_<ts>"` is false when `<ts>` is made of digits and
underscores: the letter `u` cannot occur in the haystack. -/
theorem pyIn_success_failed (t : String) (ht : tsCharsB t = true) :
    pyIn "success" ("failed_" ++ t) = false := by
  cases hb : pyIn "success" ("failed_" ++ t) with
  | false => rfl
  | true =>
    exfalso
    have hu : 'u' ∈ ("failed_" ++ t).data :=
      containsSub_mem _ _ 'u' hb (by decide)
    rw [String.data_append] at hu
    rcases List.mem_append.mp hu with h1 | h2
    · exact absurd h1 (by decide)
    · have := List.all_eq_true.mp ht 'u' h2
      simp at this

/-- `row.get(key, "")` agrees with a present cell. -/
theorem rowGet_of_lookup (row : Row) (key cell : String)
    (h : lookupCell row key = some cell) : rowGet row key = cell := by
  rw [rowGet, h, Option.getD_some]

/-- Under a passing port gate, a passing parent gate and a present cell,
`execute_action` is exactly the two cooldown gates followed by the dispatch
block. -/
theorem execute_action_gates (cfg : Config) (now : Nat) (action : Action)
    (ip : String) (ports : List String) (row : Row) (key cell : String)
    (hport : ports.contains (portStr action.port) = true)
    (hpar : parentOk action row = true)
    (hcell : lookupCell row key = some cell) :
    execute_action cfg now action ip ports row key =
      match successGate cfg now cell with
      | .raise e => .error e
      | .block => .ok (skipResult row)
      | .proceed =>
        match failedGate cfg now cell with
        | .raise e => .error e
        | .block => .ok (skipResult row)
        | .proceed => .ok (runDispatch now action ip row key) := by
  have hgate :
      (truthyStr action.b_parent_action
        && !(pyIn "success" (rowGet row (action.b_parent_action.getD "")))) = false := by
    rw [parentOk, Bool.or_eq_true, Bool.not_eq_true'] at hpar
    rcases hpar with h | h <;> simp [h]
  rw [execute_action, hport, hgate]
  simp only [Bool.not_true, Bool.false_eq_true, if_false, rowIdx, hcell,
    rowGet_of_lookup row key cell hcell]

/-! ## C2 -/

/-- C2 (confirmed): with `retrySuccessfulActions = false`, a pair whose
status cell is a success-tagged string is never dispatched again: the
eligibility gate returns `False` before the dispatch block, the plugin is
not invoked, the row is unchanged and nothing is persisted.  Since the gate
is a pure function of the configuration and the cell, and the cell is left
unchanged, every later evaluation of the same pair returns the same
not-eligible result. -/
theorem c2_success_never_retried (cfg : Config) (now : Nat) (action : Action)
    (ip : String) (ports : List String) (row : Row) (key cell : String)
    (hflag : cfg.retry_success_actions = false)
    (hcell : lookupCell row key = some cell)
    (hs : pyIn "success" cell = true) :
    execute_action cfg now action ip ports row key = .ok (skipResult row) := by
  rw [execute_action]
  cases hport : ports.contains (portStr action.port) with
  | false => rfl
  | true =>
    simp only [Bool.not_true, Bool.false_eq_true, if_false]
    cases hgate :
        (truthyStr action.b_parent_action
          && !(pyIn "success" (rowGet row (action.b_parent_action.getD "")))) with
    | true => rfl
    | false =>
      simp only [Bool.false_eq_true, if_false, rowIdx, hcell]
      rw [successGate, hs, hflag]
      simp

/-- Witness for C2 at a concrete success-tagged cell. -/
theorem c2_success_never_retried_witness :
    execute_action cfgEx nowEx aTop "10.0.0.2" ["80"] rowSucceeded "A"
      = .ok (skipResult rowSucceeded) :=
  c2_success_never_retried cfgEx nowEx aTop "10.0.0.2" ["80"] rowSucceeded "A"
    "success_20240101_000000" rfl (by decide) (by decide)

/-- The dispatch block always invokes the plugin. -/
theorem runDispatch_dispatched (now : Nat) (action : Action) (ip : String)
    (row : Row) (key : String) :
    (runDispatch now action ip row key).dispatched = true := by
  rw [runDispatch]
  cases action.execute ip (portStr action.port) row key with
  | ret s => simp
  | exc => rfl

/-! ## C1 -/

/-- C1 (confirmed): an action with a parent is only ever dispatched against a
row whose status cell for the parent is a success-tagged value.  The source
gate tests `'success' in parent_status`; on any cell the scheduler itself can
have written (absent/blank, `success_<ts>`, `failed_<ts>` with a
digit-and-underscore timestamp) that substring test holds exactly for the
success-tagged form. -/
theorem c1_parent_dependency (cfg : Config) (now : Nat) (action : Action)
    (ip : String) (ports : List String) (row : Row) (key p : String)
    (hp : action.b_parent_action = some p) (hpne : p ≠ "")
    (hwf : WellFormedCell (rowGet row p))
    (hd : dispatchedOf (execute_action cfg now action ip ports row key) = true) :
    successTagged (rowGet row p) := by
  have hin : pyIn "success" (rowGet row p) = true := by
    rw [execute_action] at hd
    cases hport : ports.contains (portStr action.port) with
    | false => rw [hport] at hd; simp [dispatchedOf, skipResult] at hd
    | true =>
      rw [hport] at hd
      simp only [Bool.not_true, Bool.false_eq_true, if_false] at hd
      have htr : truthyStr action.b_parent_action = true := by
        rw [hp, truthyStr]
        simp [hpne]
      cases hcond : pyIn "success" (rowGet row (action.b_parent_action.getD "")) with
      | false =>
        rw [htr, hcond] at hd
        simp [dispatchedOf, skipResult] at hd
      | true =>
        rw [hp, Option.getD_some] at hcond
        exact hcond
  rcases hwf with h0 | ⟨t, _, heq⟩ | ⟨t, htc, heq⟩
  · rw [h0] at hin
    exact absurd hin (by decide)
  · exact ⟨t, heq⟩
  · rw [heq, pyIn_success_failed t htc] at hin
    simp at hin

/-- Witness for C1: the child is dispatched against a row whose parent cell
succeeded. -/
theorem c1_parent_dependency_witness : successTagged (rowGet rowParentDone "Parent") :=
  c1_parent_dependency cfgEx nowEx aChild "10.0.0.1" ["80"] rowParentDone "Child"
    "Parent" rfl (by decide)
    (Or.inr (Or.inl ⟨"20240101_000000", by decide, by decide⟩)) (by decide)

/-! ## C3 -/

/-- C3 (confirmed): with every other rule passing, a `failed@Time` status
cell whose timestamp parses blocks the pair strictly before
`Time + failedRetryDelaySeconds` (the gate returns `False`, the row is
untouched) and dispatches it at any instant from that bound on. -/
theorem c3_failed_cooldown (cfg : Config) (now : Nat) (action : Action)
    (ip : String) (ports : List String) (row : Row) (key cell : String) (t : Nat)
    (hport : ports.contains (portStr action.port) = true)
    (hpar : parentOk action row = true)
    (hcell : lookupCell row key = some cell)
    (hns : pyIn "success" cell = false)
    (hf : pyIn "failed" cell = true)
    (ht : tsOfCell cell = .ok t) :
    (now < t + cfg.failed_retry_delay →
        execute_action cfg now action ip ports row key = .ok (skipResult row))
      ∧ (t + cfg.failed_retry_delay ≤ now →
        dispatchedOf (execute_action cfg now action ip ports row key) = true) := by
  have hgates := execute_action_gates cfg now action ip ports row key cell hport hpar hcell
  have hsg : successGate cfg now cell = .proceed := by
    simp only [successGate, hns, Bool.false_eq_true, if_false]
  have hfg : failedGate cfg now cell
      = (if now < t + cfg.failed_retry_delay then .block else .proceed) := by
    simp only [failedGate, hf, ht, if_true]
  constructor
  · intro hlt
    rw [hgates, hsg, hfg, if_pos hlt]
  · intro hge
    rw [hgates, hsg, hfg, if_neg (Nat.not_lt.mpr hge)]
    exact runDispatch_dispatched now action ip row key

/-- Witness for C3: a failure stamped 2024-01-01 00:00:00 with a 3600-second
delay, evaluated at 2024-01-02 00:00:00. -/
theorem c3_failed_cooldown_witness :
    (nowEx < tsEx + cfgEx.failed_retry_delay →
        execute_action cfgEx nowEx aTop "10.0.0.3" ["80"] rowFailed "A"
          = .ok (skipResult rowFailed))
      ∧ (tsEx + cfgEx.failed_retry_delay ≤ nowEx →
        dispatchedOf (execute_action cfgEx nowEx aTop "10.0.0.3" ["80"] rowFailed "A")
          = true) :=
  c3_failed_cooldown cfgEx nowEx aTop "10.0.0.3" ["80"] rowFailed "A"
    "failed_20240101_000000" tsEx rfl (by decide) rfl (by decide) (by decide) (by rfl)

/-! ## C6 -/

/-- C6 (confirmed): when an eligible pair's plugin raises, `execute_action`
catches the exception, records `failed_<now>` in the row's cell, persists the
table (`wrote = true` models the `write_data` call) and returns `False`; the
call finishes with `.ok`, so nothing propagates to the cycle walker. -/
theorem c6_exception_downgraded (cfg : Config) (now : Nat) (action : Action)
    (ip : String) (ports : List String) (row : Row) (key cell : String)
    (hport : ports.contains (portStr action.port) = true)
    (hpar : parentOk action row = true)
    (hcell : lookupCell row key = some cell)
    (hsg : successGate cfg now cell = .proceed)
    (hfg : failedGate cfg now cell = .proceed)
    (hexc : action.execute ip (portStr action.port) row key = .exc) :
    execute_action cfg now action ip ports row key
      = .ok ⟨false, rowSet row key ("failed_" ++ pyStrftime now), true, true⟩ := by
  rw [execute_action_gates cfg now action ip ports row key cell hport hpar hcell,
    hsg, hfg]
  simp only [runDispatch, hexc]

/-- Witness for C6: a raising plugin on a blank cell is recorded as a
failure at `nowEx` and returns `False`. -/
theorem c6_exception_downgraded_witness :
    execute_action cfgEx nowEx aTopRaise "10.0.0.4" ["80"] rowBlank "A"
      = .ok ⟨false, rowSet rowBlank "A" ("failed_" ++ pyStrftime nowEx), true, true⟩ :=
  c6_exception_downgraded cfgEx nowEx aTopRaise "10.0.0.4" ["80"] rowBlank "A" ""
    rfl (by decide) rfl rfl rfl rfl

/-! ## C9 -/

/-- C9 counterexample: with the port and dependency rules passing, a row with
*no* status column for the action makes `execute_action` raise `KeyError` at
the direct subscript `row[action_key]` — eligibility evaluation does not
proceed and the exception propagates, contrary to the claim that an absent
cell never raises. -/
theorem c9_missing_column_raises :
    execute_action cfgEx nowEx aTop "10.0.0.5" ["80"] rowNoColumn "A"
      = .error .keyError := by rfl

/-- C9 (amended): if the status cell for the action is *present* but empty —
the lazily created blank cell — evaluating eligibility raises nothing and the
pair is eligible subject only to the port and dependency rules, the cycle
proceeding into the dispatch block; a genuinely absent column instead raises
`KeyError` (see the counterexample). -/
theorem c9_blank_cell_eligible (cfg : Config) (now : Nat) (action : Action)
    (ip : String) (ports : List String) (row : Row) (key : String)
    (hport : ports.contains (portStr action.port) = true)
    (hpar : parentOk action row = true)
    (hcell : lookupCell row key = some "") :
    execute_action cfg now action ip ports row key
        = .ok (runDispatch now action ip row key)
      ∧ dispatchedOf (execute_action cfg now action ip ports row key) = true := by
  have hgates := execute_action_gates cfg now action ip ports row key "" hport hpar hcell
  have hsg : successGate cfg now "" = .proceed := by rfl
  have hfg : failedGate cfg now "" = .proceed := by rfl
  rw [hgates, hsg, hfg]
  exact ⟨rfl, runDispatch_dispatched now action ip row key⟩

/-- Witness for the amended C9 at a concrete blank cell. -/
theorem c9_blank_cell_eligible_witness :
    execute_action cfgEx nowEx aTop "10.0.0.4" ["80"] rowBlank "A"
        = .ok (runDispatch nowEx aTop "10.0.0.4" rowBlank "A")
      ∧ dispatchedOf (execute_action cfgEx nowEx aTop "10.0.0.4" ["80"] rowBlank "A")
        = true :=
  c9_blank_cell_eligible cfgEx nowEx aTop "10.0.0.4" ["80"] rowBlank "A"
    rfl (by decide) rfl

/-! ## C8 -/

/-- C8 counterexample: a success-tagged cell whose timestamp does not parse
(`success_20240199_000000`, day 99, with success retry enabled) is *not*
skipped — the `ValueError` is caught, the cooldown check is bypassed and the
action executes, its cell being rewritten; a failed-tagged cell with the same
corrupt timestamp (`failed_20240199_000000`) likewise executes, regardless of
the retry flag; and a tagged cell with fewer than three underscore-separated
parts (`success`) raises an uncaught `IndexError` instead of being skipped.
All three contradict the claim that a corrupted cell makes the pair skip the
attempt without crashing or executing. -/
theorem c8_corrupt_cell_counterexample :
    (execute_action cfgRetry nowEx aTop "10.0.0.6" ["80"] rowCorrupt "A").map
        (fun r => (r.dispatched, rowGet r.row "A"))
      = .ok (true, "success_20240102_000000")
    ∧ (execute_action cfgEx nowEx aTop "10.0.0.8" ["80"] rowCorruptFailed "A").map
        (fun r => (r.dispatched, rowGet r.row "A"))
      = .ok (true, "success_20240102_000000")
    ∧ execute_action cfgRetry nowEx aTop "10.0.0.7" ["80"] rowShortCell "A"
      = .error .indexError :=
  ⟨by rfl, by rfl, by rfl⟩

/-- C8 (amended): a tagged cell whose timestamp raises `ValueError` in
`strptime` (while still splitting into at least three parts) is logged and
the cooldown check is *bypassed*: with the other gates passing, the action is
dispatched this cycle and the cell rewritten — for a success-tagged cell when
success retry is enabled (with retry disabled the retry gate blocks before
the parse), and for a failed-tagged cell unconditionally; a cell with fewer
than three parts raises an uncaught `IndexError` that aborts the cycle (see
the counterexample). -/
theorem c8_parse_error_executes (cfg : Config) (now : Nat) (action : Action)
    (ip : String) (ports : List String) (row : Row) (key cell : String)
    (hport : ports.contains (portStr action.port) = true)
    (hpar : parentOk action row = true)
    (hcell : lookupCell row key = some cell)
    (ht : tsOfCell cell = .error .valueError) :
    (pyIn "success" cell = true → cfg.retry_success_actions = true →
        pyIn "failed" cell = false →
        execute_action cfg now action ip ports row key
            = .ok (runDispatch now action ip row key)
          ∧ dispatchedOf (execute_action cfg now action ip ports row key) = true)
    ∧ (pyIn "success" cell = false → pyIn "failed" cell = true →
        execute_action cfg now action ip ports row key
            = .ok (runDispatch now action ip row key)
          ∧ dispatchedOf (execute_action cfg now action ip ports row key) = true) := by
  have hgates := execute_action_gates cfg now action ip ports row key cell hport hpar hcell
  constructor
  · intro hs hretry hnf
    have hsg : successGate cfg now cell = .proceed := by
      simp only [successGate, hs, hretry, ht, if_true, Bool.not_true,
        Bool.false_eq_true, if_false]
    have hfg : failedGate cfg now cell = .proceed := by
      simp only [failedGate, hnf, Bool.false_eq_true, if_false]
    rw [hgates, hsg, hfg]
    exact ⟨rfl, runDispatch_dispatched now action ip row key⟩
  · intro hns hf
    have hsg : successGate cfg now cell = .proceed := by
      simp only [successGate, hns, Bool.false_eq_true, if_false]
    have hfg : failedGate cfg now cell = .proceed := by
      simp only [failedGate, hf, ht, if_true]
    rw [hgates, hsg, hfg]
    exact ⟨rfl, runDispatch_dispatched now action ip row key⟩

/-- Witness for the amended C8 at the concrete failed-tagged corrupt cell
(retry disabled, showing the bypass is unconditional on the failed
branch). -/
theorem c8_parse_error_executes_witness :
    execute_action cfgEx nowEx aTop "10.0.0.8" ["80"] rowCorruptFailed "A"
        = .ok (runDispatch nowEx aTop "10.0.0.8" rowCorruptFailed "A")
      ∧ dispatchedOf
          (execute_action cfgEx nowEx aTop "10.0.0.8" ["80"] rowCorruptFailed "A")
        = true :=
  (c8_parse_error_executes cfgEx nowEx aTop "10.0.0.8" ["80"] rowCorruptFailed "A"
    "failed_20240199_000000" rfl (by decide) rfl (by rfl)).2 (by decide) (by decide)

/-! ## C4 -/

/-- The top-level row loop dispatches nothing over rows that are all
non-alive. -/
theorem topRowLoop_dead (cfg : Config) (now : Nat) (allActions : List Action)
    (action : Action) :
    ∀ (rows : List Row), (∀ r ∈ rows, r.alive ≠ "1") →
      topRowLoop cfg now allActions action rows = .ok (rows, false)
  | [], _ => rfl
  | row :: rest, h => by
    have h1 : row.alive ≠ "1" := h row (List.mem_cons_self row rest)
    have ih := topRowLoop_dead cfg now allActions action rest
      (fun r hr => h r (List.mem_cons_of_mem row hr))
    simp [topRowLoop, h1, ih]

/-- The whole top-level pass dispatches nothing over rows that are all
non-alive. -/
theorem topPass_dead (cfg : Config) (now : Nat) (allActions : List Action) :
    ∀ (as : List Action) (rows : List Row), (∀ r ∈ rows, r.alive ≠ "1") →
      topPass cfg now allActions as rows = .ok (rows, false)
  | [], _, _ => rfl
  | a :: as, rows, h => by
    simp [topPass, topRowLoop_dead cfg now allActions a rows h,
      topPass_dead cfg now allActions as rows h]

/-- The child sweep dispatches nothing when no action has a truthy parent. -/
theorem sweep_no_children (cfg : Config) (now : Nat) :
    ∀ (cs : List Action) (rows : List Row),
      (∀ c ∈ cs, truthyStr c.b_parent_action = false) →
      sweep cfg now cs rows = .ok (rows, false)
  | [], _, _ => rfl
  | c :: cs, rows, h => by
    have h1 : truthyStr c.b_parent_action = false := h c (List.mem_cons_self c cs)
    have ih := sweep_no_children cfg now cs rows
      (fun x hx => h x (List.mem_cons_of_mem c hx))
    simp [sweep, h1, ih]

/-- C4 counterexample: against a table whose only row is *not* alive but
carries an old parent success, one cycle still dispatches the child action
(the child sweep has no liveness check), mutates the row's status cell and
returns `True` — contradicting the claim that a cycle over a table with no
live row performs no dispatches, changes nothing and returns `False`. -/
theorem c4_dead_table_counterexample :
    process_alive_ips cfgEx nowEx [aXDead, aYDead] [deadRow]
      = .ok ([deadRowAfter], true)
    ∧ deadRowAfter ≠ deadRow :=
  ⟨by rfl, by decide⟩

/-- C4 (amended): the top-level pass skips non-alive rows, but the child
sweep iterates every row regardless of liveness and may dispatch child
actions against dead rows (see the counterexample).  When additionally no
registered action has a (Python-truthy) parent, a cycle over a table with no
alive row performs no dispatches, leaves every row unchanged and returns
`False`. -/
theorem c4_dead_table_cycle (cfg : Config) (now : Nat) (actions : List Action)
    (rows : List Row)
    (halive : ∀ r ∈ rows, r.alive ≠ "1")
    (hnochild : ∀ a ∈ actions, truthyStr a.b_parent_action = false) :
    process_alive_ips cfg now actions rows = .ok (rows, false) := by
  simp [process_alive_ips, topPass_dead cfg now actions actions rows halive,
    sweep_no_children cfg now actions rows hnochild]

/-- Witness for the amended C4: a parentless registry over a dead table. -/
theorem c4_dead_table_cycle_witness :
    process_alive_ips cfgEx nowEx [aXDead] [deadRow] = .ok ([deadRow], false) :=
  c4_dead_table_cycle cfgEx nowEx [aXDead] [deadRow] (by decide) (by decide)

/-! ## C5 -/

/-- C5 counterexample: loading Scenario A's registry places `ActionY`
(port 0) in `standalone_actions`, which `process_alive_ips` never iterates;
after one cycle `ActionX`'s cell reads `success_<t1>` and the cycle reports
execution, but `ActionY`'s cell is still blank — it was never dispatched, so
it is not marked `success@t2` as the claim requires. -/
theorem c5_scenario_a_counterexample :
    (process_alive_ips cfgEx nowEx orchScenA.actions [t1row]).map
        (fun p => (p.1.map (fun r => (rowGet r "ActionX", rowGet r "ActionY")), p.2))
      = .ok ([("success_20240102_000000", "")], true)
    ∧ ¬ successTagged "" := by
  refine ⟨by rfl, ?_⟩
  rintro ⟨t, ht⟩
  have hl := congrArg String.length ht
  rw [String.length_append] at hl
  have h0 : ("" : String).length = 0 := rfl
  have h8 : ("success_" : String).length = 8 := rfl
  rw [h0, h8] at hl
  omega

/-- C5 (amended): with Scenario A's registry, one cycle dispatches `ActionX`
and marks its cell `success@t1`; `ActionY`, having port 0, is loaded into
`standalone_actions`, a list the cycle never iterates, so `ActionY` is not
dispatched in that cycle (neither fast path nor child sweep sees it) and its
cell is unchanged. -/
theorem c5_standalone_never_dispatched :
    orchScenA.actions.map (fun a => a.action_name) = ["ActionX"]
    ∧ orchScenA.standalone_actions.map (fun a => a.action_name) = ["ActionY"]
    ∧ (process_alive_ips cfgEx nowEx orchScenA.actions [t1row]).map
        (fun p => (p.1.map (fun r => (rowGet r "ActionX", rowGet r "ActionY")), p.2))
      = .ok ([("success_20240102_000000", "")], true) :=
  ⟨by rfl, by rfl, by rfl⟩

/-! ## C10 -/

/-- C10 counterexample: a registry whose first record names an unknown
module aborts loading entirely with `ImportError` — the later well-formed
record is never loaded, contradicting the claim that only the offending
action is skipped. -/
theorem c10_unknown_module_counterexample :
    load_actions envLoad entriesBadModule initOrch = .error .importError := by rfl

/-- C10 (amended): a registry record naming an unknown *class* of an
existing module is logged and skipped, and loading continues with the
remaining records unaffected; a record naming an unknown *module* raises
`ImportError` outside the `try`, aborting the load of all remaining records
(see the counterexample). -/
theorem c10_unknown_class_skipped (env : Env) (entry : RegistryEntry)
    (rest : List RegistryEntry) (orch : Orchestrator)
    (classes : List (String × PluginClass)) (cname : String)
    (hmod1 : entry.b_module ≠ "scanning")
    (hmod2 : entry.b_module ≠ "nmap_vuln_scanner")
    (himp : importModule env entry.b_module = .ok classes)
    (hcls : entry.b_class = some cname)
    (hattr : getattrClass classes cname = .error .attributeError) :
    load_actions env (entry :: rest) orch = load_actions env rest orch := by
  have hskip : load_action env entry orch = .ok orch := by
    simp only [load_action, himp, hcls, hattr]
  simp [load_actions, hmod1, hmod2, hskip]

/-- Witness for the amended C10: the record naming the missing class
`Missing` of `goodmod` is skipped and loading proceeds. -/
theorem c10_unknown_class_skipped_witness :
    load_actions envLoad [entryBadClass] initOrch = load_actions envLoad [] initOrch :=
  c10_unknown_class_skipped envLoad entryBadClass [] initOrch
    [("GoodAction", ⟨bhvSuccess⟩)] "Missing" (by decide) (by decide) (by rfl) rfl (by rfl)

/-! ## C7 -/

/-- `switch_network_if_idle` contains an unconditional `while True` loop: it
does not return within any finite number of iterations. -/
theorem switch_never_returns (w : WifiWorld) (status : String) :
    ∀ (fuel k : Nat), switch_network_if_idle w status k fuel = none := by
  intro fuel
  induction fuel with
  | zero => intro k; rfl
  | succ n ih => intro k; exact ih (k + 1)

/-- C7 counterexample: with both cycles of an iteration dispatching zero,
`switch_network_if_idle` is invoked (once) but never returns — the iteration
never completes, so the subsequent sleep and shutdown-flag re-check are never
reached, contradicting the claim that the invocation runs to completion and
control returns to the outer loop. -/
theorem c7_idle_iteration_counterexample :
    runIteration cfgEx nowEx orchIdle [] [] wifiQuiet 5 = .hung 1
    ∧ ¬ IterCompletes cfgEx nowEx orchIdle [] [] wifiQuiet := by
  refine ⟨by rfl, ?_⟩
  rintro ⟨fuel, s', sl, n, h⟩
  have hred : runIteration cfgEx nowEx orchIdle [] [] wifiQuiet fuel = .hung 1 := by
    simp only [runIteration, switch_never_returns wifiQuiet "idle_action" fuel 0]
    rfl
  rw [hred] at h
  exact IterResult.noConfusion h

/-- C7 (amended): when a full cycle dispatches zero and the rescan-and-retry
cycle also dispatches zero, idle remediation (`switch_network_if_idle`) is
invoked exactly once — but the invocation contains an unconditional infinite
poll loop and never returns, so the iteration hangs: the configured
scan-interval sleep and the next shutdown-flag check are never reached. -/
theorem c7_idle_invokes_wifi_once_and_hangs (cfg : Config) (now : Nat)
    (orch : Orchestrator) (store scanStore : List Row) (w : WifiWorld)
    (fuel : Nat) (d1 d2 : List Row)
    (h1 : process_alive_ips cfg now orch.actions store = .ok (d1, false))
    (h2 : process_alive_ips cfg now orch.actions scanStore = .ok (d2, false))
    (hsc : orch.network_scanner = true) :
    runIteration cfg now orch store scanStore w fuel = .hung 1 := by
  simp only [runIteration, h1, h2, hsc,
    switch_never_returns w "idle_action" fuel 0]
  rfl

/-- Witness for the amended C7 at concrete empty stores. -/
theorem c7_idle_invokes_wifi_once_and_hangs_witness :
    runIteration cfgEx nowEx orchIdle [] [] wifiQuiet 3 = .hung 1 :=
  c7_idle_invokes_wifi_once_and_hangs cfgEx nowEx orchIdle [] [] wifiQuiet 3 [] []
    rfl rfl rfl

end Bjorn
